import Mathlib

/-!
Verification development for the kudu client access layer
(src/kudu/client/table-internal.cc and src/client/client-test.cc).

Part I embeds the metadata-resolution loop of KuduTable::Data::Open
(table-internal.cc, lines 36-113) as a fuel/trace-based loop: the
environment supplies, for every iteration, the monotonic clock value at
loop entry, the outcome of the GetTableLocations RPC, the response
contents, and the outcomes of the SetMasterServerProxy (leader
rediscovery) calls the iteration may make.

Part II models the write-session engine, the error collector, the tablet
write path and the scanner registry.  Their implementations are not part
of the two source files (only their tests are), so those definitions are
modelled from the specification, with the observable message formats
taken from the assertions of client-test.cc.
-/

/-- Status kinds of the client status taxonomy (util/status.h is outside
the two source files; the kinds are the ones named by the spec taxonomy
and asserted by the tests: IsNetworkError, IsTimedOut, IsIOError,
IsAlreadyPresent, IsInvalidArgument, plus Ok / IllegalState / NotFound). -/
inductive StatusKind where
  | Ok
  | NetworkError
  | TimedOut
  | IOError
  | IllegalState
  | AlreadyPresent
  | NotFound
  | InvalidArgument
deriving DecidableEq, Repr

/-- Display prefix used by Status::ToString, as observed in the test
assertions ("Illegal state: ...", "Invalid argument: ..."). -/
def StatusKind.toDisplay : StatusKind → String
  | .Ok => "OK"
  | .NetworkError => "Network error"
  | .TimedOut => "Timed out"
  | .IOError => "IO error"
  | .IllegalState => "Illegal state"
  | .AlreadyPresent => "Already present"
  | .NotFound => "Not found"
  | .InvalidArgument => "Invalid argument"

/-- A status: an error kind plus a message. -/
structure Status where
  kind : StatusKind
  msg : String
deriving DecidableEq, Repr

/-- Status::OK(). -/
def Status.OK : Status := ⟨.Ok, ""⟩

/-- Status::ok(). -/
def Status.ok (s : Status) : Bool := s.kind = .Ok

/-- Status::ToString(), as observed in the test assertions: the kind
display, then ": ", then the message (just "OK" for an ok status). -/
def Status.toDisplayString (s : Status) : String :=
  if s.ok then "OK" else s.kind.toDisplay ++ ": " ++ s.msg

/-- The master error codes distinguished by the loop in
table-internal.cc lines 85-86; every other code of MasterErrorPB takes
the generic branch, so they are collapsed into one constructor. -/
inductive MasterErrorCode where
  | notTheLeader
  | catalogManagerNotInitialized
  | otherCode
deriving DecidableEq, Repr

/-- The per-iteration environment of the while(true) loop of
KuduTable::Data::Open (table-internal.cc lines 48-109):
`now` is MonoTime::Now at loop entry (monotonic nanoseconds, as a Nat);
`rpcStatus` is the status returned by the GetTableLocations call;
`respError` is resp.has_error()/resp.error(): the code together with
StatusFromPB(resp.error().status());
`tabletLocations` is the list of tablet ids carried by the response;
`rediscover1`/`rediscover2`/`rediscover3` are the statuses returned by
the SetMasterServerProxy calls of lines 68, 78 and 90 respectively,
should the iteration reach them. -/
structure OpenStepEnv where
  now : Nat
  rpcStatus : Status
  respError : Option (MasterErrorCode × Status)
  tabletLocations : List String
  rediscover1 : Status
  rediscover2 : Status
  rediscover3 : Status
deriving Repr

/-- One iteration body of the loop (table-internal.cc lines 60-108),
after the deadline check; returns true when the iteration breaks out of
the loop with success (line 104) and false when it retries.  Control
flow, traced from the source:
* lines 63-72: if the RPC failed with a network error, rediscover the
  leader (rediscover1); on rediscovery success, continue (retry);
  otherwise s becomes the failed rediscovery status;
* lines 74-82: if s (the RPC status, or the failed rediscovery status
  from the previous branch) is TimedOut, rediscover (rediscover2); on
  success continue; otherwise s becomes that failed status;
* a failed RPC therefore always retries: every fall-through path leaves
  s non-ok, so line 84 is skipped and line 99 continues;
* lines 84-98: on an ok RPC whose response carries an error, the codes
  NOT_THE_LEADER and CATALOG_MANAGER_NOT_INITIALIZED rediscover
  (rediscover3) and retry whether or not the rediscovery succeeds (a
  successful one continues at line 92, a failed one leaves s non-ok for
  line 101); any other code turns into StatusFromPB(resp.error().status());
* lines 99-102: ANY non-ok s at this point logs "retrying" and continues;
* lines 103-108: an ok s breaks on a non-empty tablet list, else sleeps
  100ms and retries. -/
def openStep (e : OpenStepEnv) : Bool :=
  let s0 := e.rpcStatus
  if ¬ s0.ok ∧ s0.kind = .NetworkError ∧ e.rediscover1.ok then false
  else
    let s1 := if ¬ s0.ok ∧ s0.kind = .NetworkError then e.rediscover1 else s0
    if ¬ s0.ok ∧ s1.kind = .TimedOut ∧ e.rediscover2.ok then false
    else
      let s2 := if ¬ s0.ok ∧ s1.kind = .TimedOut then e.rediscover2 else s1
      match e.respError with
      | some (code, pbStatus) =>
        if s2.ok ∧ (code = .notTheLeader ∨ code = .catalogManagerNotInitialized) then
          false
        else
          let s3 := if s2.ok then pbStatus else s2
          if ¬ s3.ok then false
          else ¬ e.tabletLocations.isEmpty
      | none =>
        if ¬ s2.ok then false
        else ¬ e.tabletLocations.isEmpty

/-- The message of the TimedOut status built at table-internal.cc lines
56-58; the figure substituted is default_select_master_timeout_ in
milliseconds (the configured budget), computed at line 52-53. -/
def timedOutMessage (timeoutMillis : Nat) : String :=
  "Timed out waiting for non-empty GetTableLocations reply from a leader master after "
    ++ toString timeoutMillis ++ " ms."

/-- MonoTime::ComesBefore (kudu/util/monotime, outside the two source
files): strict precedence of monotonic clock values, per the contract
the name states — a time point does not come before itself. -/
def comesBefore (a b : Nat) : Bool := a < b

/-- The while(true) loop of KuduTable::Data::Open (lines 48-109) over a
finite trace of per-iteration environments; `deadline` is the MonoTime
value computed at lines 41-42 (start + default_select_master_timeout_)
and `timeoutMillis` that timeout in milliseconds.  Returns the Status
the surrounding function returns: TimedOut when the deadline check at
line 49 fires, Status::OK on the break at line 104 (the function then
returns OK at line 112), and none when the trace runs out before the
loop exits (the loop itself never returns any other status). -/
def openLoop (timeoutMillis deadline : Nat) : List OpenStepEnv → Option Status
  | [] => none
  | e :: rest =>
    if comesBefore deadline e.now then some ⟨.TimedOut, timedOutMessage timeoutMillis⟩
    else if openStep e then some Status.OK
    else openLoop timeoutMillis deadline rest

/-- The shared tablet-location cache of the spec data model: table name
to the tablet ids cached for it. -/
structure TabletLocationCache where
  entries : List (String × List String)
deriving DecidableEq, Repr

/-- Whether every location of `locs` is recorded in the cache under
`table` — the postcondition the spec states for a successful resolution. -/
def cacheHasLocations (c : TabletLocationCache) (table : String) (locs : List String) : Bool :=
  locs.all fun l => c.entries.any fun ent => ent.1 = table ∧ l ∈ ent.2

/-- KuduTable::Data::Open as a whole, with the client state it could
touch made explicit: the function body (table-internal.cc lines 36-113)
runs the loop and neither reads nor writes the shared tablet-location
cache anywhere — the response locations are only counted for the log
line at 111 — so the cache passes through unchanged. -/
def openCall (timeoutMillis deadline : Nat) (envs : List OpenStepEnv)
    (cache : TabletLocationCache) : Option Status × TabletLocationCache :=
  (openLoop timeoutMillis deadline envs, cache)

/-- An environment whose outcome is an error of none of the retried-by-
rediscovery classes: the RPC itself succeeded and the response carries a
master error whose code is neither NOT_THE_LEADER nor
CATALOG_MANAGER_NOT_INITIALIZED, with a non-ok embedded status. -/
def otherErrorEnv (e : OpenStepEnv) : Bool :=
  e.rpcStatus.ok &&
    match e.respError with
    | some (code, pbStatus) => decide (code = .otherCode) && !pbStatus.ok
    | none => false

/-- A clean-success environment: ok RPC, no response error, at least one
tablet location. -/
def successEnv (e : OpenStepEnv) : Bool :=
  e.rpcStatus.ok && decide (e.respError = none) && !e.tabletLocations.isEmpty

/-- Concrete iteration environments used in the concrete runs below. -/
def envOtherError : OpenStepEnv :=
  { now := 10
    rpcStatus := Status.OK
    respError := some (.otherCode, ⟨.NotFound, "The table was deleted"⟩)
    tabletLocations := []
    rediscover1 := Status.OK
    rediscover2 := Status.OK
    rediscover3 := Status.OK }

def envSuccess : OpenStepEnv :=
  { now := 20
    rpcStatus := Status.OK
    respError := none
    tabletLocations := ["tablet-1"]
    rediscover1 := Status.OK
    rediscover2 := Status.OK
    rediscover3 := Status.OK }

/-- Helper: an environment satisfying `otherErrorEnv` makes the loop
body retry (it reaches line 99 of the source with the non-ok
StatusFromPB status and continues). -/
theorem openStep_otherError (e : OpenStepEnv) (h : otherErrorEnv e = true) :
    openStep e = false := by
  unfold otherErrorEnv at h
  cases hr : e.respError with
  | none => rw [hr] at h; simp at h
  | some p =>
    obtain ⟨code, pb⟩ := p
    rw [hr] at h
    simp only [Bool.and_eq_true, decide_eq_true_eq, Bool.not_eq_true'] at h
    obtain ⟨hok, hcode, hpb⟩ := h
    subst hcode
    unfold openStep
    rw [hr]
    simp [hok, hpb]

/-- Helper: an environment satisfying `successEnv` makes the loop body
break with success (line 104 of the source). -/
theorem openStep_success (e : OpenStepEnv) (h : successEnv e = true) :
    openStep e = true := by
  unfold successEnv at h
  simp only [Bool.and_eq_true, decide_eq_true_eq, Bool.not_eq_true'] at h
  obtain ⟨⟨hok, hnone⟩, hloc⟩ := h
  unfold openStep
  rw [hnone]
  simp [hok, hloc]

/-- Helper: the loop returns no status other than OK and the
deadline-expiry TimedOut. -/
theorem openLoop_result (tm d : Nat) (envs : List OpenStepEnv) (st : Status)
    (h : openLoop tm d envs = some st) :
    st = Status.OK ∨ st.kind = StatusKind.TimedOut := by
  induction envs with
  | nil => simp [openLoop] at h
  | cons e rest ih =>
    unfold openLoop at h
    split at h
    · right
      cases h
      rfl
    · split at h
      · left
        cases h
        rfl
      · exact ih h

/-- C1 counterexample: the claim says an error other than a network
failure, a timed-out sub-call, or a not-the-leader / catalog-not-yet-
initialized response is returned unchanged and the loop terminates
immediately with it.  With a first iteration whose response carries an
OTHER master error embedding a NotFound status, and a clean successful
second iteration, the loop returns Status::OK: the other error was
retried, not returned — the loop did not terminate with it. -/
theorem C1_counterexample :
    otherErrorEnv envOtherError = true ∧
    openLoop 50 100 [envOtherError, envSuccess] = some Status.OK ∧
    Status.OK.kind ≠ StatusKind.NotFound := by
  refine ⟨by decide, by decide, by decide⟩

/-- C1 (amended): in the metadata-resolution loop every error outcome,
including those other than transport/network failures, timed-out
sub-calls and not-the-leader / catalog-not-initialized responses, is
retried: an iteration carrying such an other error (reached before the
deadline) leaves the loop to continue on the remaining trace, and the
loop never returns any status besides success and deadline-expiry
TimedOut. -/
theorem C1_other_errors_retried (tm d : Nat) (e : OpenStepEnv) (rest : List OpenStepEnv)
    (hOther : otherErrorEnv e = true) (hNotExpired : comesBefore d e.now = false) :
    openLoop tm d (e :: rest) = openLoop tm d rest ∧
    ∀ st, openLoop tm d (e :: rest) = some st →
      st = Status.OK ∨ st.kind = StatusKind.TimedOut := by
  constructor
  · have hstep : openLoop tm d (e :: rest) =
        if comesBefore d e.now then some ⟨.TimedOut, timedOutMessage tm⟩
        else if openStep e then some Status.OK
        else openLoop tm d rest := rfl
    rw [hstep, hNotExpired, openStep_otherError e hOther]
    simp
  · intro st h
    exact openLoop_result tm d (e :: rest) st h

/-- C1 witness: the amended theorem applied at the concrete trace of the
counterexample. -/
theorem C1_witness :
    openLoop 50 100 [envOtherError, envSuccess] = openLoop 50 100 [envSuccess] ∧
    ∀ st, openLoop 50 100 [envOtherError, envSuccess] = some st →
      st = Status.OK ∨ st.kind = StatusKind.TimedOut :=
  C1_other_errors_retried 50 100 envOtherError [envSuccess] (by decide) (by decide)

/-- C5 counterexample: the claim says the loop fails with TimedOut as
soon as current time ≥ deadline at loop entry, with a message reporting
the elapsed milliseconds.  Two defects at concrete inputs (deadline 100,
configured timeout 50 ms, hence loop start at 50):
(a) at now = 100 = deadline (so now ≥ deadline) the loop does not time
out — it runs the iteration and succeeds;
(b) at now = 200 the loop does time out, but the message reports the
configured 50 ms budget, not the 150 ms actually elapsed since start. -/
theorem C5_counterexample :
    openLoop 50 100 [{ envSuccess with now := 100 }] = some Status.OK ∧
    openLoop 50 100 [{ envSuccess with now := 200 }] =
      some ⟨.TimedOut, timedOutMessage 50⟩ ∧
    timedOutMessage 50 ≠
      ("Timed out waiting for non-empty GetTableLocations reply from a leader master after "
        ++ toString (200 - 50) ++ " ms.") := by
  refine ⟨by decide, by decide, by decide⟩

/-- C5 (amended): if at loop entry the current time is strictly greater
than the deadline, the call fails with a TimedOut status whose message
reports the configured resolution-timeout budget in milliseconds. -/
theorem C5_timeout_on_expired_deadline (tm d : Nat) (e : OpenStepEnv)
    (rest : List OpenStepEnv) (h : comesBefore d e.now = true) :
    openLoop tm d (e :: rest) = some ⟨.TimedOut, timedOutMessage tm⟩ := by
  have hstep : openLoop tm d (e :: rest) =
      if comesBefore d e.now then some ⟨.TimedOut, timedOutMessage tm⟩
      else if openStep e then some Status.OK
      else openLoop tm d rest := rfl
  rw [hstep, h]
  simp

/-- C5 witness: the amended theorem at now = 200 past deadline 100. -/
theorem C5_witness :
    openLoop 50 100 [{ envSuccess with now := 200 }] =
      some ⟨.TimedOut, timedOutMessage 50⟩ :=
  C5_timeout_on_expired_deadline 50 100 { envSuccess with now := 200 } [] (by decide)

/-- C6 counterexample: the claim says that on a successful response with
one or more tablet locations the loop terminates with success AND the
shared tablet-location cache has been updated with the returned
locations.  Starting from an empty cache, a successful run returning
location "tablet-1" leaves the cache empty: the returned location is
recorded nowhere. -/
theorem C6_counterexample :
    openCall 50 100 [envSuccess] ⟨[]⟩ = (some Status.OK, ⟨[]⟩) ∧
    envSuccess.tabletLocations = ["tablet-1"] ∧
    cacheHasLocations ⟨[]⟩ "fake-table" ["tablet-1"] = false := by
  refine ⟨by decide, by decide, by decide⟩

/-- C6 (amended): when the metadata-resolution loop receives a
successful response carrying one or more tablet locations it terminates
with success, but it does not update any shared tablet-location cache:
the cache passes through Open unchanged (the returned locations are
discarded apart from a log line). -/
theorem C6_success_leaves_cache_unchanged (tm d : Nat) (e : OpenStepEnv)
    (rest : List OpenStepEnv) (cache : TabletLocationCache)
    (hSucc : successEnv e = true) (hNotExpired : comesBefore d e.now = false) :
    openCall tm d (e :: rest) cache = (some Status.OK, cache) := by
  have hstep : openLoop tm d (e :: rest) =
      if comesBefore d e.now then some ⟨.TimedOut, timedOutMessage tm⟩
      else if openStep e then some Status.OK
      else openLoop tm d rest := rfl
  unfold openCall
  rw [hstep, hNotExpired, openStep_success e hSucc]
  simp

/-- C6 witness: the amended theorem at the concrete successful trace,
from a non-empty initial cache. -/
theorem C6_witness :
    openCall 50 100 [envSuccess] ⟨[("other-table", ["t9"])]⟩ =
      (some Status.OK, ⟨[("other-table", ["t9"])]⟩) :=
  C6_success_leaves_cache_unchanged 50 100 envSuccess [] ⟨[("other-table", ["t9"])]⟩
    (by decide) (by decide)

namespace client

/-- Column types used by the test schema (client-test.cc lines 44-48). -/
inductive ColType where
  | uint32
  | string
deriving DecidableEq, Repr

/-- Display name of a column type, as it appears in the operation
descriptions asserted by the tests ("uint32 key=1", "string
string_val=x"). -/
def ColType.toDisplay : ColType → String
  | .uint32 => "uint32"
  | .string => "string"

/-- One column of a schema. -/
structure ColumnSchema where
  name : String
  ctype : ColType
deriving DecidableEq, Repr

/-- A schema: ordered columns with a primary-key prefix length (the
spec data model; the test schema has key prefix 1). -/
structure Schema where
  cols : List ColumnSchema
  numKeyCols : Nat
deriving DecidableEq, Repr

/-- The schema of the client tests (client-test.cc lines 44-48):
(key UINT32, int_val UINT32, string_val STRING), one key column. -/
def testSchema : Schema :=
  ⟨[⟨"key", .uint32⟩, ⟨"int_val", .uint32⟩, ⟨"string_val", .string⟩], 1⟩

/-- A cell value. -/
inductive Value where
  | u32 (n : Nat)
  | str (s : String)
deriving DecidableEq, Repr

/-- Display form of a value inside an operation description. -/
def Value.toDisplay : Value → String
  | .u32 n => toString n
  | .str s => s

/-- A partially filled row: one optional value per schema column. -/
structure PartialRow where
  schema : Schema
  vals : List (Option Value)
deriving DecidableEq, Repr

/-- A fresh row with no column set. -/
def PartialRow.emptyRow (s : Schema) : PartialRow :=
  ⟨s, s.cols.map fun _ => none⟩

/-- SetUInt32 / SetStringCopy: set the value of the named column. -/
def PartialRow.setCol (r : PartialRow) (colName : String) (v : Value) : PartialRow :=
  { r with vals := (r.schema.cols.zip r.vals).map fun cv =>
      if cv.1.name = colName then some v else cv.2 }

/-- The set columns of the row, paired with their schema entries, in
schema order. -/
def PartialRow.setPairs (r : PartialRow) : List (ColumnSchema × Value) :=
  (r.schema.cols.zip r.vals).filterMap fun cv =>
    match cv.2 with
    | some v => some (cv.1, v)
    | none => none

/-- Whether every primary-key column of the row carries a value. -/
def PartialRow.keyIsSet (r : PartialRow) : Bool :=
  (r.vals.take r.schema.numKeyCols).all fun o => o.isSome

/-- An Insert operation handle: the owning table and the row payload
(client API class Insert; the claims only exercise inserts). -/
structure Insert where
  table : String
  row : PartialRow
deriving DecidableEq, Repr

/-- Insert::ToString, the human-readable operation description, in the
format asserted by the tests (client-test.cc lines 320-322, 423-424,
461-462): "INSERT " then the set columns in schema order as
"type name=value", comma separated. -/
def Insert.toDisplayString (op : Insert) : String :=
  "INSERT " ++ String.intercalate ", "
    (op.row.setPairs.map fun cv =>
      cv.1.ctype.toDisplay ++ " " ++ cv.1.name ++ "=" ++ cv.2.toDisplay)

/-- The primary-key part of the row of an operation. -/
def Insert.rowKey (op : Insert) : List (Option Value) :=
  op.row.vals.take op.row.schema.numKeyCols

/-- The key column of an operation as a natural (the tests scan the
UINT32 key column; an unset or non-integer key reads as 0). -/
def Insert.keyNat (op : Insert) : Nat :=
  match op.row.vals.head? with
  | some (some (.u32 k)) => k
  | _ => 0

/-- Session flush modes (spec flush-mode policy; the claim scenarios all
run MANUAL_FLUSH, the mode the tests set). -/
inductive FlushMode where
  | manualFlush
  | autoFlushSync
  | autoFlushBackground
deriving DecidableEq, Repr

/-- An ErrorRecord: the failed operation's original textual description
plus the status returned by the server or transport (spec data model;
accessors failed_op()/status() in the tests). -/
structure ErrorRecord where
  failedOp : String
  status : Status
deriving DecidableEq, Repr

/-- Modelled from the spec: the ErrorCollector of the session engine is
not among the two source files.  A bounded store of error records with
an overflow flag reporting discards since the last drain. -/
structure ErrorCollector where
  records : List ErrorRecord
  overflowed : Bool
deriving DecidableEq, Repr

def ErrorCollector.emptyCollector : ErrorCollector := ⟨[], false⟩

/-- Modelled from the spec: recording into a full collector discards
(the spec documents a consistent policy is to be chosen; the one chosen
here drops the new record) and sets the overflow flag; otherwise the
record is appended. -/
def ErrorCollector.record (cap : Nat) (ec : ErrorCollector) (r : ErrorRecord) : ErrorCollector :=
  if ec.records.length < cap then { ec with records := ec.records ++ [r] }
  else { ec with overflowed := true }

/-- Modelled from the spec: the write session's state — flush mode, the
not-yet-dispatched buffer, the embedded error collector with its
capacity (KuduSession of the client API is not among the two source
files). -/
structure KuduSession where
  flushMode : FlushMode
  errorCapacity : Nat
  buffer : List Insert
  collector : ErrorCollector
deriving DecidableEq, Repr

/-- KuduClient::NewSession, with the flush mode the scenario then sets. -/
def newSession (m : FlushMode) : KuduSession :=
  ⟨m, 1000, [], ErrorCollector.emptyCollector⟩

/-- Result of Apply: the returned status, the session afterwards, and
whether ownership of the operation was taken (the caller's handle is
nulled on success and left valid on failure). -/
structure ApplyResult where
  status : Status
  session : KuduSession
  ownershipTaken : Bool
deriving DecidableEq, Repr

/-- Modelled from the spec: KuduSession::Apply validates that the
required primary-key fields are set; a missing key fails immediately
with IllegalState and the message "Key not specified: " followed by the
operation description (format from the assertion at client-test.cc
lines 320-322), the operation is not buffered and the handle stays with
the caller; on success the operation is buffered and ownership
transfers.  Modelled for MANUAL_FLUSH, the mode of every claim
scenario. -/
def KuduSession.Apply (sess : KuduSession) (op : Insert) : ApplyResult :=
  if op.row.keyIsSet then
    ⟨Status.OK, { sess with buffer := sess.buffer ++ [op] }, true⟩
  else
    ⟨⟨.IllegalState, "Key not specified: " ++ op.toDisplayString⟩, sess, false⟩

/-- KuduSession::HasPendingOperations: only the not-yet-dispatched
buffer counts. -/
def KuduSession.HasPendingOperations (sess : KuduSession) : Bool :=
  ¬ sess.buffer.isEmpty

/-- KuduSession::CountBufferedOperations. -/
def KuduSession.CountBufferedOperations (sess : KuduSession) : Nat :=
  sess.buffer.length

/-- KuduSession::CountPendingErrors. -/
def KuduSession.CountPendingErrors (sess : KuduSession) : Nat :=
  sess.collector.records.length

/-- KuduSession::GetPendingErrors: drains the collector, returning the
records and whether an overflow discarded any since the last drain. -/
def KuduSession.GetPendingErrors (sess : KuduSession) :
    (List ErrorRecord × Bool) × KuduSession :=
  ((sess.collector.records, sess.collector.overflowed),
   { sess with collector := ErrorCollector.emptyCollector })

/-- Modelled from the spec: a tablet of the external storage collaborator
as the list of rows committed to it. -/
structure Tablet where
  rows : List Insert
deriving DecidableEq, Repr

/-- Whether the tablet already holds a row with the given primary key. -/
def Tablet.hasKey (t : Tablet) (k : List (Option Value)) : Bool :=
  t.rows.any fun r => decide (r.rowKey = k)

/-- Modelled from the spec: the per-row result of an insert at the
storage server — a duplicate primary key is rejected with
AlreadyPresent (asserted IsAlreadyPresent by the test), a fresh key
commits the row. -/
def Tablet.insertRow (t : Tablet) (op : Insert) : Tablet × Status :=
  if t.hasKey op.rowKey then (t, ⟨.AlreadyPresent, "key already present"⟩)
  else (⟨t.rows ++ [op]⟩, Status.OK)

/-- Modelled from the spec: the Write RPC applies the batch row by row
and returns the per-row results. -/
def Tablet.writeBatch (t : Tablet) (batch : List Insert) : Tablet × List Status :=
  batch.foldl (fun acc op =>
    let next := acc.1.insertRow op
    (next.1, acc.2 ++ [next.2])) (t, [])

/-- The storage server state: tablet id to tablet contents. -/
abbrev TabletServer := List (String × Tablet)

/-- The tablet stored under an id (an unknown id reads as empty). -/
def serverTablet (srv : TabletServer) (tid : String) : Tablet :=
  match srv.find? fun p => decide (p.1 = tid) with
  | some p => p.2
  | none => ⟨[]⟩

/-- Install a tablet state under an id. -/
def serverSetTablet (srv : TabletServer) (tid : String) (t : Tablet) : TabletServer :=
  if srv.any fun p => decide (p.1 = tid) then
    srv.map fun p => if p.1 = tid then (tid, t) else p
  else srv ++ [(tid, t)]

/-- The environment a flush round runs against: the resolver outcome
per table name (a tablet id, or the resolution-level failure status)
and the transport outcome per tablet id (none reaches the server, some
is the transport failure). -/
structure FlushEnv where
  resolve : String → Except Status String
  transport : String → Option Status

/-- Append an operation to its tablet's batch, keeping one batch per
tablet and preserving arrival order. -/
def addToBatches (batches : List (String × List Insert)) (tid : String) (op : Insert) :
    List (String × List Insert) :=
  if batches.any fun b => decide (b.1 = tid) then
    batches.map fun b => if b.1 = tid then (b.1, b.2 ++ [op]) else b
  else batches ++ [(tid, [op])]

/-- The aggregate status a flush round completes with: OK for an
error-free round, the "Some errors occurred" IOError otherwise (the
test asserts IsIOError and the "Some errors occurred" substring). -/
def aggregateStatus (errs : List ErrorRecord) : Status :=
  if errs.isEmpty then Status.OK else ⟨.IOError, "Some errors occurred"⟩

/-- Result of one flush round: the aggregate status returned to the
caller, the session afterwards, the storage server afterwards, and the
error records the round produced. -/
structure FlushResult where
  status : Status
  session : KuduSession
  server : TabletServer
  roundErrors : List ErrorRecord

/-- Modelled from the spec: KuduSession::Flush — snapshot the buffer and
clear it; resolve each operation's destination tablet, a resolution
failure yielding one ErrorRecord per affected operation; partition the
resolved operations into one batch per tablet; dispatch each batch, a
transport-level failure marking every operation of that batch failed
with the transport (network-error) status, one ErrorRecord per
operation, and a reachable server contributing one ErrorRecord per
rejected row; the round completes with the aggregate error iff it
produced at least one ErrorRecord, and the records are merged into the
session's collector. -/
def KuduSession.Flush (sess : KuduSession) (env : FlushEnv) (srv : TabletServer) :
    FlushResult :=
  let resolved := sess.buffer.map fun op => (op, env.resolve op.table)
  let resolutionErrors := resolved.filterMap fun p =>
    match p.2 with
    | .error e => some (⟨p.1.toDisplayString, e⟩ : ErrorRecord)
    | .ok _ => none
  let batches := resolved.foldl (fun acc p =>
    match p.2 with
    | .ok tid => addToBatches acc tid p.1
    | .error _ => acc) []
  let dispatched := batches.foldl (fun acc b =>
    match env.transport b.1 with
    | some e => (acc.1, acc.2 ++ b.2.map fun op => (⟨op.toDisplayString, e⟩ : ErrorRecord))
    | none =>
      let written := (serverTablet acc.1 b.1).writeBatch b.2
      (serverSetTablet acc.1 b.1 written.1,
       acc.2 ++ (b.2.zip written.2).filterMap fun ps =>
         if ps.2.ok then none else some (⟨ps.1.toDisplayString, ps.2⟩ : ErrorRecord)))
    (srv, ([] : List ErrorRecord))
  let roundErrors := resolutionErrors ++ dispatched.2
  { status := aggregateStatus roundErrors
    session := { sess with
      buffer := []
      collector := roundErrors.foldl
        (fun acc r => ErrorCollector.record sess.errorCapacity acc r) sess.collector }
    server := dispatched.1
    roundErrors := roundErrors }

/-- The insert the test helper ApplyInsertToSession builds (client-test.cc
lines 332-342): key, int_val and string_val set in schema order. -/
def mkInsert (key intVal : Nat) (s : String) : Insert :=
  ⟨"fake-table", (((PartialRow.emptyRow testSchema).setCol "key" (.u32 key)).setCol
      "int_val" (.u32 intVal)).setCol "string_val" (.str s)⟩

/-- A healthy environment: every table resolves to "tablet-1" and the
transport reaches the server. -/
def goodEnv : FlushEnv := ⟨fun _ => .ok "tablet-1", fun _ => none⟩

/-- The environment after the master is shut down: tablet resolution
fails at resolution level with a NetworkError (the connection to the
master is refused). -/
def deadMasterEnv : FlushEnv :=
  ⟨fun _ => .error ⟨.NetworkError, "Connection refused"⟩, fun _ => none⟩

/-- The environment after the tablet server is shut down: resolution
still succeeds, the write RPC itself fails with a NetworkError. -/
def deadTserverEnv : FlushEnv :=
  ⟨fun _ => .ok "tablet-1", fun _ => some ⟨.NetworkError, "Connection refused"⟩⟩

/-- The session of DoTestWriteWithDeadServer just before Flush: one
buffered insert (1, 1, "x") (client-test.cc line 449). -/
def c2Session : KuduSession := ((newSession .manualFlush).Apply (mkInsert 1 1 "x")).session

/-- The dead-master flush round of DoTestWriteWithDeadServer. -/
def c2FlushMaster : FlushResult := c2Session.Flush deadMasterEnv []

/-- The dead-tablet-server flush round of DoTestWriteWithDeadServer. -/
def c2FlushTserver : FlushResult := c2Session.Flush deadTserverEnv []

/-- TestBatchWithPartialError, round 1: insert (1, 1, "original row")
and flush it (client-test.cc lines 403-404). -/
def c3Flush1 : FlushResult :=
  ((newSession .manualFlush).Apply (mkInsert 1 1 "original row")).session.Flush goodEnv []

/-- TestBatchWithPartialError, round 2: a batch holding the duplicate
(1, 1, "Attempted dup") and the fresh (2, 1, "Should succeed"), flushed
against the server state of round 1 (client-test.cc lines 408-410). -/
def c3Flush2 : FlushResult :=
  (((c3Flush1.session.Apply (mkInsert 1 1 "Attempted dup")).session.Apply
      (mkInsert 2 1 "Should succeed")).session).Flush goodEnv c3Flush1.server

/-- The keyless insert of TestInsertSingleRowManualBatch (client-test.cc
lines 314-317): int_val and string_val set, the key column not. -/
def c7Op0 : Insert :=
  ⟨"fake-table", ((PartialRow.emptyRow testSchema).setCol "int_val" (.u32 54321)).setCol
      "string_val" (.str "hello world")⟩

/-- The first Apply of TestInsertSingleRowManualBatch, on the keyless
insert. -/
def c7Apply1 : ApplyResult := (newSession .manualFlush).Apply c7Op0

/-- The second Apply, after SetUInt32("key", 12345) on the same handle
(client-test.cc lines 324-325). -/
def c7Apply2 : ApplyResult :=
  c7Apply1.session.Apply ⟨"fake-table", c7Op0.row.setCol "key" (.u32 12345)⟩

/-- ClientTest::BuildTestRow (client-test.cc lines 98-104): key = i,
int_val = i * 2, string_val = "hello i". -/
def buildTestRow (i : Nat) : Insert := mkInsert i (2 * i) ("hello " ++ toString i)

/-- ClientTest::InsertTestRows (client-test.cc lines 89-96): insert the
test rows for indexes 0..n-1 into the tablet. -/
def insertTestRows (n : Nat) : Tablet :=
  (List.range n).foldl (fun t i => (t.insertRow (buildTestRow i)).1) ⟨[]⟩

/-- Modelled from the spec: a scan with no predicate over a tablet
returns every row of the tablet (the scanner implementation is not
among the two source files). -/
def scanNoPredicates (t : Tablet) : List Insert := t.rows

/-- A server-side scanner registry entry: scanner id and last-activity
time (spec data model of the ScannerRegistry collaborator). -/
structure ScannerEntry where
  sid : Nat
  lastActivity : Nat
deriving DecidableEq, Repr

/-- The server-side ScannerManager, holding the active scanners. -/
structure ScannerManager where
  scanners : List ScannerEntry
deriving DecidableEq, Repr

/-- ScannerManager::CountActiveScanners. -/
def ScannerManager.CountActiveScanners (m : ScannerManager) : Nat :=
  m.scanners.length

/-- Modelled from the spec: the registry entry of a scanner is removed
when its close (explicit, or the asynchronous close issued on handle
disposal) completes at the server. -/
def ScannerManager.unregister (m : ScannerManager) (sid : Nat) : ScannerManager :=
  ⟨m.scanners.filter fun e => decide (e.sid ≠ sid)⟩

/-- Modelled from the spec: the idle-timeout reaper at time `now`
removes every scanner whose last activity is at least `idleTimeout`
old. -/
def ScannerManager.reap (m : ScannerManager) (idleTimeout now : Nat) : ScannerManager :=
  ⟨m.scanners.filter fun e => decide (now < e.lastActivity + idleTimeout)⟩

/-- Completion of the close of every registered scanner, in registry
order. -/
def ScannerManager.closeAll (m : ScannerManager) : ScannerManager :=
  (m.scanners.map fun e => e.sid).foldl ScannerManager.unregister m

/-- Modelled from the spec: ScanOpen — the first response returns as
many rows as the batch-size budget admits, each encoded row costing
`rowSizeBytes`; if that satisfies the whole scan, no server-side
scanner is registered and there are no more rows; otherwise a scanner
id is registered with the current time as its last activity. -/
def scanOpen (mgr : ScannerManager) (nextId now : Nat) (tab : Tablet)
    (batchSizeBytes rowSizeBytes : Nat) :
    List Insert × Bool × Option Nat × ScannerManager :=
  let returned := tab.rows.take (batchSizeBytes / rowSizeBytes)
  if returned.length = tab.rows.length then
    (returned, false, none, mgr)
  else
    (returned, true, some nextId, ⟨mgr.scanners ++ [⟨nextId, now⟩]⟩)

/-- Helper: the aggregate round status is ok exactly when the round
produced no error record. -/
theorem aggregateStatus_ok_iff (errs : List ErrorRecord) :
    (aggregateStatus errs).ok = true ↔ errs = [] := by
  unfold aggregateStatus
  split
  · next h => simp_all [Status.ok, Status.OK, List.isEmpty_iff]
  · next h => simp_all [Status.ok, List.isEmpty_iff]

/-- Helper: a flush round completes with an ok status iff it produced
no error record. -/
theorem flush_ok_iff (sess : KuduSession) (env : FlushEnv) (srv : TabletServer) :
    ((sess.Flush env srv).status.ok = true) ↔ (sess.Flush env srv).roundErrors = [] := by
  have h : (sess.Flush env srv).status = aggregateStatus (sess.Flush env srv).roundErrors := rfl
  rw [h]
  exact aggregateStatus_ok_iff _

/-- Helper: the primary key of the i-th test row is the single key
column holding i. -/
theorem rowKey_buildTestRow (i : Nat) :
    (buildTestRow i).rowKey = [some (Value.u32 i)] := rfl

/-- Helper: the key column of the i-th test row reads back as i. -/
theorem keyNat_buildTestRow (i : Nat) : (buildTestRow i).keyNat = i := rfl

/-- Helper: inserting the n test rows commits exactly the rows with
indexes 0..n-1 in order (all keys are distinct, so every insert
succeeds). -/
theorem insertTestRows_rows (n : Nat) :
    (insertTestRows n).rows = (List.range n).map buildTestRow := by
  induction n with
  | zero => rfl
  | succ m ih =>
    unfold insertTestRows
    rw [List.range_succ, List.foldl_append]
    show ((insertTestRows m).insertRow (buildTestRow m)).1.rows = _
    have hk : (insertTestRows m).hasKey (buildTestRow m).rowKey = false := by
      unfold Tablet.hasKey
      rw [ih, List.any_eq_false]
      intro r hr
      rw [List.mem_map] at hr
      obtain ⟨j, hj, rfl⟩ := hr
      rw [List.mem_range] at hj
      simp only [rowKey_buildTestRow, decide_eq_true_eq]
      intro hEq
      simp only [List.cons.injEq, Option.some.injEq, Value.u32.injEq, and_true] at hEq
      omega
    unfold Tablet.insertRow
    rw [hk]
    simp [ih, List.map_append]

/-- Helper: the arithmetic series 0..n-1 sums to n(n-1)/2. -/
theorem range_sum_gauss (n : Nat) : (List.range n).sum = n * (n - 1) / 2 := by
  have h2 : 2 * (List.range n).sum = n * (n - 1) := by
    induction n with
    | zero => rfl
    | succ m ih =>
      rw [List.range_succ, List.sum_append]
      have hexp : 2 * ((List.range m).sum + ([m].sum)) =
          2 * (List.range m).sum + 2 * m := by
        simp
        ring_nf
      rw [hexp, ih]
      cases m with
      | zero => rfl
      | succ k =>
        simp only [Nat.succ_sub_one]
        ring
  have hdiv : 2 * (List.range n).sum / 2 = (List.range n).sum :=
    Nat.mul_div_cancel_left _ (by decide)
  rw [← h2, hdiv]

/-- Helper: processing a list of scanner closes removes exactly the
entries whose ids are in the list. -/
theorem unregisterList_scanners (ids : List Nat) (m : ScannerManager) :
    (ids.foldl ScannerManager.unregister m).scanners =
      m.scanners.filter fun e => decide (e.sid ∉ ids) := by
  induction ids generalizing m with
  | nil => simp
  | cons i ids ih =>
    rw [List.foldl_cons, ih]
    show (m.scanners.filter fun e => decide (e.sid ≠ i)).filter _ = _
    rw [List.filter_filter]
    congr 1
    funext e
    simp only [List.mem_cons, not_or, decide_not, Bool.decide_and]
    exact Bool.and_comm _ _

/-- Helper: once the close of every registered scanner completes, the
active-scanner count is zero. -/
theorem closeAll_count (m : ScannerManager) :
    m.closeAll.CountActiveScanners = 0 := by
  unfold ScannerManager.closeAll ScannerManager.CountActiveScanners
  rw [unregisterList_scanners, List.length_eq_zero, List.filter_eq_nil_iff]
  intro e he
  simp only [decide_eq_true_eq, Decidable.not_not]
  exact List.mem_map.mpr ⟨e, he, rfl⟩

/-- C8: for every registry state, both completion paths drive the
server-side active-scanner count to 0: completing the close of every
handle (explicit Close or the asynchronous close issued on handle
disposal) empties the registry, and so does the idle-timeout reaper
once it fires at any late-enough time — an eventuality with no fixed
upper bound, since `now` is only constrained from below. -/
theorem C8_scanners_eventually_zero (m : ScannerManager) (idleTimeout now : Nat)
    (h : ∀ e ∈ m.scanners, e.lastActivity + idleTimeout ≤ now) :
    (m.reap idleTimeout now).CountActiveScanners = 0 ∧
    m.closeAll.CountActiveScanners = 0 := by
  constructor
  · unfold ScannerManager.reap ScannerManager.CountActiveScanners
    rw [List.length_eq_zero, List.filter_eq_nil_iff]
    intro e he
    simp only [decide_eq_true_eq, not_lt]
    exact h e he
  · exact closeAll_count m

/-- C8 witness: the theorem at a registry holding one scanner (id 7,
last active at 5) with a 10-tick idle timeout, reaped at time 30. -/
theorem C8_witness :
    (ScannerManager.reap ⟨[⟨7, 5⟩]⟩ 10 30).CountActiveScanners = 0 ∧
    (ScannerManager.closeAll ⟨[⟨7, 5⟩]⟩).CountActiveScanners = 0 :=
  C8_scanners_eventually_zero ⟨[⟨7, 5⟩]⟩ 10 30 (by decide)

/-- C9: for all n, after inserting the n test rows with consecutive
integer keys 0..n-1 and scanning with no predicate, the key column of
the returned rows sums to n(n-1)/2. -/
theorem C9_scan_key_sum (n : Nat) :
    ((scanNoPredicates (insertTestRows n)).map Insert.keyNat).sum = n * (n - 1) / 2 := by
  unfold scanNoPredicates
  rw [insertTestRows_rows, List.map_map]
  have hid : (Insert.keyNat ∘ buildTestRow) = fun i => i := funext fun i => rfl
  rw [hid]
  have : (List.range n).map (fun i => i) = List.range n := List.map_id _
  rw [this]
  exact range_sum_gauss n

/-- C2 counterexample: the claim says Flush itself fails with a
resolution-level NetworkError/TimedOut status when the master is dead.
In the dead-master round, Flush returns the aggregate
IOError("Some errors occurred") — the very status the test asserts with
IsIOError at client-test.cc line 451 — whose kind is neither
NetworkError nor TimedOut; the NetworkError lives in the ErrorRecord. -/
theorem C2_counterexample :
    c2FlushMaster.status = ⟨.IOError, "Some errors occurred"⟩ ∧
    c2FlushMaster.status.kind ≠ StatusKind.NetworkError ∧
    c2FlushMaster.status.kind ≠ StatusKind.TimedOut := by
  refine ⟨by decide, by decide, by decide⟩

/-- C2 (amended): with the master dead, tablet resolution fails with
NetworkError and Flush fails (with the aggregate error); with the
tablet server dead, the write RPC fails with NetworkError and Flush
again fails; in both rounds, with exactly one buffered operation,
exactly one ErrorRecord is enqueued and retrievable via
GetPendingErrors with overflow = false, carrying the NetworkError
status and the failed operation's original textual description. -/
theorem C2_dead_server_one_error :
    (c2FlushMaster.status.ok = false ∧
     c2FlushMaster.session.CountPendingErrors = 1 ∧
     c2FlushMaster.session.GetPendingErrors.1 =
       ([⟨"INSERT uint32 key=1, uint32 int_val=1, string string_val=x",
          ⟨.NetworkError, "Connection refused"⟩⟩], false)) ∧
    (c2FlushTserver.status.ok = false ∧
     c2FlushTserver.session.CountPendingErrors = 1 ∧
     c2FlushTserver.session.GetPendingErrors.1 =
       ([⟨"INSERT uint32 key=1, uint32 int_val=1, string string_val=x",
          ⟨.NetworkError, "Connection refused"⟩⟩], false)) := by
  refine ⟨⟨by decide, by decide, by decide⟩, ⟨by decide, by decide, by decide⟩⟩

/-- C3: a flush round completes with the aggregate error iff it
produced at least one ErrorRecord (first conjunct, over every session,
environment and server); and in the TestBatchWithPartialError scenario
the round with the duplicate-key row and the fresh row fails with
exactly one AlreadyPresent ErrorRecord naming the duplicate insert,
while the fresh sibling row is committed next to the original row. -/
theorem C3_partial_error_isolated (sess : KuduSession) (env : FlushEnv) (srv : TabletServer) :
    (((sess.Flush env srv).status.ok = true) ↔ (sess.Flush env srv).roundErrors = []) ∧
    c3Flush1.status = Status.OK ∧
    c3Flush2.status = ⟨.IOError, "Some errors occurred"⟩ ∧
    c3Flush2.roundErrors =
      [⟨"INSERT uint32 key=1, uint32 int_val=1, string string_val=Attempted dup",
        ⟨.AlreadyPresent, "key already present"⟩⟩] ∧
    c3Flush2.session.CountPendingErrors = 1 ∧
    c3Flush2.session.GetPendingErrors.1.2 = false ∧
    (serverTablet c3Flush2.server "tablet-1").rows =
      [mkInsert 1 1 "original row", mkInsert 2 1 "Should succeed"] := by
  refine ⟨flush_ok_iff sess env srv, by decide, by decide, by decide, by decide,
    by decide, by decide⟩

/-- C7: Apply of the keyless insert fails with IllegalState and the
human-readable description of the attempted operation, buffers
nothing (HasPendingOperations stays false) and leaves the handle with
the caller; after the key is set, Apply on the same handle succeeds,
takes ownership, and raises the buffered count by one. -/
theorem C7_apply_key_validation :
    c7Apply1.status.kind = StatusKind.IllegalState ∧
    c7Apply1.status.toDisplayString =
      "Illegal state: Key not specified: INSERT uint32 int_val=54321, string string_val=hello world" ∧
    c7Apply1.session.HasPendingOperations = false ∧
    c7Apply1.ownershipTaken = false ∧
    c7Apply2.status = Status.OK ∧
    c7Apply2.ownershipTaken = true ∧
    c7Apply2.session.CountBufferedOperations = c7Apply1.session.CountBufferedOperations + 1 := by
  refine ⟨by decide, by decide, by decide, by decide, by decide, by decide, by decide⟩

/-- C10: scanner registration depends on the batch-size budget, not on
the row count: Open on the 10-row table with the default 1MB budget
returns all 10 rows inline, reports no more rows and registers no
server-side scanner, while Open with a 0-byte budget returns no data
inline and registers exactly one scanner. -/
theorem C10_budget_controls_registration :
    (scanOpen ⟨[]⟩ 1 0 (insertTestRows 10) 1048576 64).2.2.1 = none ∧
    (scanOpen ⟨[]⟩ 1 0 (insertTestRows 10) 1048576 64).2.2.2.CountActiveScanners = 0 ∧
    (scanOpen ⟨[]⟩ 1 0 (insertTestRows 10) 1048576 64).1.length = 10 ∧
    (scanOpen ⟨[]⟩ 1 0 (insertTestRows 10) 1048576 64).2.1 = false ∧
    (scanOpen ⟨[]⟩ 1 0 (insertTestRows 10) 0 64).1 = [] ∧
    (scanOpen ⟨[]⟩ 1 0 (insertTestRows 10) 0 64).2.1 = true ∧
    (scanOpen ⟨[]⟩ 1 0 (insertTestRows 10) 0 64).2.2.2.CountActiveScanners = 1 := by
  refine ⟨by decide, by decide, by decide, by decide, by decide, by decide, by decide⟩

end client
